import Mathlib

/-!
Verification development for the pipeline lifecycle and execution manager
of the stable-diffusion gRPC server (`sdgrpcserver/manager.py`).

The Python source is shallowly embedded: each class becomes a structure,
each method a pure function with explicit state passing.  External
facilities (the torch availability probes, the filesystem, the protobuf
sampler constants) are passed in as explicit parameters or small
environment records, so every definition is executable on concrete inputs.
-/

/-! ## Mode policy (`EngineMode`) -/

/-- Runtime availability of the two accelerator kinds, as probed by
`torch.cuda.is_available()` / `torch.backends.mps.is_available()`.
The probes are external to the core, so they are an explicit parameter. -/
structure TorchEnv where
  cudaAvailable : Bool
  mpsAvailable : Bool
deriving DecidableEq, Repr

/-- `EngineMode.__init__` state: optimisation level and the two
accelerator-enable flags. -/
structure EngineMode where
  vramO : Int
  enable_cuda : Bool
  enable_mps : Bool
deriving DecidableEq, Repr

/-- `EngineMode.device`: first available of cuda, mps, cpu, each gated by
its enable flag and the runtime availability probe. -/
def EngineMode.device (m : EngineMode) (env : TorchEnv) : String :=
  if m.enable_cuda && env.cudaAvailable then "cuda"
  else if m.enable_mps && env.mpsAvailable then "mps"
  else "cpu"

/-- `EngineMode.attention_slice`: device is cuda and `vramO > 0`. -/
def EngineMode.attention_slice (m : EngineMode) (env : TorchEnv) : Bool :=
  (m.device env == "cuda") && decide (m.vramO > 0)

/-- `EngineMode.cuda_only_unet`: device is cuda and `vramO > 2`. -/
def EngineMode.cuda_only_unet (m : EngineMode) (env : TorchEnv) : Bool :=
  (m.device env == "cuda") && decide (m.vramO > 2)

/-- `EngineMode.fp16`: device is cuda, `vramO > 1`, and not
`cuda_only_unet`. -/
def EngineMode.fp16 (m : EngineMode) (env : TorchEnv) : Bool :=
  (m.device env == "cuda") && decide (m.vramO > 1) && !(m.cuda_only_unet env)

/-! ## Scheduler set and its construction-time migration -/

/-- A scheduler instance.  `sid` is an identity token distinguishing
distinct instances (reference identity in Python); `stepsOffset` models
`scheduler.config.steps_offset`, with `none` when the config lacks the
attribute (`hasattr` fails). -/
structure Scheduler where
  sid : Nat
  stepsOffset : Option Int
deriving DecidableEq, Repr

/-- `PipelineWrapper._prepScheduler`: if the config carries a
`steps_offset` different from 1, emit a deprecation warning and rewrite
it to 1.  The second component counts the warnings emitted by this call. -/
def prepScheduler (s : Scheduler) : Scheduler × Nat :=
  match s.stepsOffset with
  | some o => if o ≠ 1 then ({ s with stepsOffset := some 1 }, 1) else (s, 0)
  | none => (s, 0)

/-- The mutable fields of the underlying diffusion pipeline that the
wrapper touches: the live scheduler and the installed progress reporter
(a token identifying the `ProgressBarWrapper` instance, `none` before any
`generate` call). -/
structure PipelineState where
  scheduler : Scheduler
  progressBar : Option Nat
deriving DecidableEq, Repr

/-- `PipelineWrapper` after `__init__`: the captured default scheduler
(`_plms := pipeline.scheduler`) plus the four prepped alternates, and the
owned pipeline. -/
structure PipelineWrapper where
  id : String
  plms : Scheduler
  klms : Scheduler
  ddim : Scheduler
  euler : Scheduler
  eulera : Scheduler
  pipeline : PipelineState
deriving DecidableEq, Repr

/-- `PipelineWrapper.__init__`: capture the pipeline's own scheduler as
the default, build the four alternates through `_prepScheduler`.  The
second component is the total number of deprecation warnings emitted
during construction. -/
def mkPipelineWrapper (pipeId : String) (pipe : PipelineState)
    (klms0 ddim0 euler0 eulera0 : Scheduler) : PipelineWrapper × Nat :=
  let k := prepScheduler klms0
  let d := prepScheduler ddim0
  let e := prepScheduler euler0
  let ea := prepScheduler eulera0
  ({ id := pipeId, plms := pipe.scheduler, klms := k.1, ddim := d.1,
     euler := e.1, eulera := ea.1, pipeline := pipe },
   k.2 + d.2 + e.2 + ea.2)

/-! ## Generation request dispatch -/

/-- Modelled from the spec: the sampler enum values come from the
generated protobuf module `generation_pb2`, which is not part of the
core source.  The spec fixes five recognized values — default/DDPM,
K-LMS, DDIM, K-Euler, K-Euler-ancestral — with the DDPM-like member as
the default-valued one; they are modelled as five distinct numerals. -/
def SAMPLER_DDPM : Nat := 0

/-- Modelled from the spec: the K-LMS sampler enum value. -/
def SAMPLER_K_LMS : Nat := 1

/-- Modelled from the spec: the DDIM sampler enum value. -/
def SAMPLER_DDIM : Nat := 2

/-- Modelled from the spec: the K-Euler sampler enum value. -/
def SAMPLER_K_EULER : Nat := 3

/-- Modelled from the spec: the K-Euler-ancestral sampler enum value. -/
def SAMPLER_K_EULER_ANCESTRAL : Nat := 4

/-- The request fields `generate` reads for the claims at hand:
`params.sampler` (`none` models a `None` sampler) and `params.seed`. -/
structure GenerationParams where
  sampler : Option Nat
  seed : Int
deriving DecidableEq, Repr

/-- The sampler dispatch chain of `PipelineWrapper.generate`:
`None`/DDPM pick the captured default, the four alternates their slots,
anything else is unsupported (`none` models `NotImplementedError`). -/
def selectScheduler (w : PipelineWrapper) (sampler : Option Nat) : Option Scheduler :=
  match sampler with
  | none => some w.plms
  | some v =>
    if v = SAMPLER_DDPM then some w.plms
    else if v = SAMPLER_K_LMS then some w.klms
    else if v = SAMPLER_DDIM then some w.ddim
    else if v = SAMPLER_K_EULER then some w.euler
    else if v = SAMPLER_K_EULER_ANCESTRAL then some w.eulera
    else none

/-- The seeded-generator setup at the top of `generate`: a deterministic
generator exists only when `params.seed > 0`. -/
def mkGenerator (p : GenerationParams) : Option Int :=
  if p.seed > 0 then some p.seed else none

/-- `PipelineWrapper.generate`, up to (and excluding) the underlying
model invocation: resolve the scheduler from the sampler enum; on an
unrecognized value raise (`Except.error`) with the wrapper untouched;
otherwise install the chosen scheduler and a fresh progress reporter
(identified by `progressTok`) into the live pipeline. -/
def generate (w : PipelineWrapper) (p : GenerationParams) (progressTok : Nat) :
    Except Unit Unit × PipelineWrapper :=
  let _generator := mkGenerator p
  match selectScheduler w p.sampler with
  | none => (Except.error (), w)
  | some sch =>
    (Except.ok (),
     { w with pipeline := { scheduler := sch, progressBar := some progressTok } })

/-! ## Progress reporter (`ProgressBarWrapper.InternalTqdm.__iter__`) -/

/-- The cancellable iteration of `InternalTqdm.__iter__`: before yielding
each element, if a stop event was supplied (`some f`) and is set at that
moment, stop without yielding it.  `f k` is the value of
`stop_event.is_set()` at the check performed after `k` elements have been
yielded.  Returns the yielded elements and whether the loop aborted. -/
def internalTqdmIter {α : Type} (ev : Option (Nat → Bool)) : Nat → List α → List α × Bool
  | _, [] => ([], false)
  | k, x :: xs =>
    match ev with
    | some f =>
      if f k then ([], true)
      else
        let r := internalTqdmIter ev (k + 1) xs
        (x :: r.1, r.2)
    | none =>
      let r := internalTqdmIter ev (k + 1) xs
      (x :: r.1, r.2)

/-! ## Engine configs, `loadPipelines`, `getStatus` -/

/-- One record of the declarative engine list, with the optional keys as
`Option` (absent key = `none`), mirroring `engine.get(...)` defaults. -/
structure Engine where
  id : String
  cls : String
  model : String
  local_model : Option String
  enabled : Option Bool
  isDefault : Option Bool
  use_auth_token : Option Bool
deriving DecidableEq, Repr

/-- `engine.get("enabled", False)` as used by `loadPipelines`: a missing
key counts as disabled. -/
def enabledForLoad (e : Engine) : Bool := e.enabled.getD false

/-- `engine.get("enabled", True)` as used by `getStatus`: a missing key
counts as enabled. -/
def includedInStatus (e : Engine) : Bool := e.enabled.getD true

/-- The class-tag dispatch of `buildPipeline`: the two recognized
pipeline classes. -/
def knownClass (c : String) : Bool :=
  c == "StableDiffusionPipeline" || c == "UnifiedPipeline"

/-- `EngineManager.loadPipelines`, abstracted to the registration it
performs: walk the engine list, skip engines not enabled-for-load,
register the id of each buildable enabled engine, and stop with an
exception (second component `false`) at the first enabled engine whose
class tag is unknown (`buildPipeline` returns `None` there), keeping the
registrations made before the failure. -/
def loadPipelines : List Engine → List String × Bool
  | [] => ([], true)
  | e :: rest =>
    if enabledForLoad e then
      if knownClass e.cls then
        (e.id :: (loadPipelines rest).1, (loadPipelines rest).2)
      else ([], false)
    else loadPipelines rest

/-- `EngineManager.getStatus`: for every engine not explicitly disabled,
report whether its id is registered. -/
def getStatus (engines : List Engine) (pipelines : List String) : List (String × Bool) :=
  (engines.filter includedInStatus).map (fun e => (e.id, decide (e.id ∈ pipelines)))

/-! ## Weight path resolution (`EngineManager._getWeightPath`) -/

/-- The `os.path` facilities `_getWeightPath` consults, as an abstract
environment: absoluteness test, join against a root, normalization, and
the directory-existence probe. -/
structure PathEnv where
  isAbs : String → Bool
  joinPath : String → String → String
  normPath : String → String
  isDir : String → Bool

/-- `EngineManager._getWeightPath`: a truthy (non-empty, present) local
path is resolved against the weight root unless absolute, normalized,
and used only if the resolved directory exists; otherwise the remote
path is returned. -/
def getWeightPath (env : PathEnv) (weight_root remote_path : String)
    (local_path : Option String) : String :=
  match local_path with
  | some lp =>
    if lp ≠ "" then
      let test0 := if env.isAbs lp then lp else env.joinPath weight_root lp
      let test1 := env.normPath test0
      if env.isDir test1 then test1 else remote_path
    else remote_path
  | none => remote_path

/-! ## Engine manager residency state and `getPipe` -/

/-- The residency-relevant state of `EngineManager`: the registered
pipeline ids (`_pipelines` keys), the ids whose wrappers are currently
accelerator-resident, and the active pointer (`_active`'s id, or
`none`). -/
structure EngineManagerState where
  registered : List String
  resident : List String
  activeId : Option String
deriving DecidableEq, Repr

/-- `PipelineWrapper.deactivate` seen from the manager: the wrapper moves
to host memory. -/
def deactivateW (s : EngineManagerState) (aid : String) : EngineManagerState :=
  { s with resident := s.resident.filter (· != aid) }

/-- `PipelineWrapper.activate` seen from the manager: the wrapper becomes
accelerator-resident. -/
def activateW (s : EngineManagerState) (pid : String) : EngineManagerState :=
  { s with resident := pid :: s.resident.filter (· != pid) }

/-- `EngineManager.getPipe`: fast path when the requested id is already
active; otherwise deactivate the current active wrapper (if any), then
look the id up in the registry — a missing id raises `KeyError` at that
point (`Except.error`), after the deactivation and before the active
pointer moves — and on success record and activate the wrapper. -/
def getPipe (s : EngineManagerState) (pid : String) : Except Unit Unit × EngineManagerState :=
  match s.activeId with
  | some aid =>
    if pid = aid then (Except.ok (), s)
    else
      let s1 := deactivateW s aid
      if pid ∈ s1.registered then
        (Except.ok (), activateW { s1 with activeId := some pid } pid)
      else (Except.error (), s1)
  | none =>
    if pid ∈ s.registered then
      (Except.ok (), activateW { s with activeId := some pid } pid)
    else (Except.error (), s)

/-- Success test for the embedded exception results. -/
def exceptOk : Except Unit Unit → Bool
  | Except.ok _ => true
  | Except.error _ => false

/-- Registry invariant, part 1: every accelerator-resident wrapper is the
one the active pointer names (hence at most one is resident and all
others are host-resident). -/
def activeOnlyResident (s : EngineManagerState) : Bool :=
  s.resident.all (fun w => s.activeId == some w)

/-- Registry invariant, part 2: a non-null active pointer refers to an
accelerator-resident wrapper. -/
def activeIsResident (s : EngineManagerState) : Bool :=
  match s.activeId with
  | none => true
  | some a => s.resident.contains a

/-- The full registry invariant of the spec's data model. -/
def managerInv (s : EngineManagerState) : Bool :=
  activeOnlyResident s && activeIsResident s

/-! ## Theorems -/

/-- C3: for every optimization level and every combination of
accelerator-enable flags and accelerator availability, `Mode.fp16` and
`Mode.cuda_only_unet` are never simultaneously true, and whenever
`cuda_only_unet` is true it suppresses `fp16`. -/
theorem fp16_cuda_only_unet_exclusive (m : EngineMode) (env : TorchEnv) :
    ¬(m.fp16 env = true ∧ m.cuda_only_unet env = true) ∧
    (m.cuda_only_unet env = true → m.fp16 env = false) := by
  constructor
  · rintro ⟨hf, hc⟩
    rw [EngineMode.fp16, hc] at hf
    simp at hf
  · intro hc
    rw [EngineMode.fp16, hc]
    simp

/-- Witness for C3: at optimization level 3 with cuda enabled and
available, `cuda_only_unet` holds and `fp16` is suppressed. -/
theorem fp16_cuda_only_unet_exclusive_witness :
    (EngineMode.mk 3 true true).cuda_only_unet ⟨true, true⟩ = true ∧
    (EngineMode.mk 3 true true).fp16 ⟨true, true⟩ = false :=
  ⟨by decide, (fp16_cuda_only_unet_exclusive ⟨3, true, true⟩ ⟨true, true⟩).2 (by decide)⟩

/-- C7: `_getWeightPath` uses the resolved, normalized local path exactly
when it names an existing directory, and otherwise (missing, empty or
non-existent local path) falls back to the remote model identifier. -/
theorem getWeightPath_spec (env : PathEnv) (root remote : String) :
    getWeightPath env root remote none = remote ∧
    (∀ lp : String, lp ≠ "" →
      (env.isDir (env.normPath (if env.isAbs lp then lp else env.joinPath root lp)) = true →
        getWeightPath env root remote (some lp) =
          env.normPath (if env.isAbs lp then lp else env.joinPath root lp)) ∧
      (env.isDir (env.normPath (if env.isAbs lp then lp else env.joinPath root lp)) = false →
        getWeightPath env root remote (some lp) = remote)) ∧
    getWeightPath env root remote (some "") = remote := by
  refine ⟨rfl, fun lp hlp => ⟨fun hdir => ?_, fun hdir => ?_⟩, ?_⟩
  · simp [getWeightPath, hlp, hdir]
  · simp [getWeightPath, hlp, hdir]
  · simp [getWeightPath]

/-- Path environment used for the C7 witness: nothing is absolute, join
inserts a slash, normalization is the identity, and exactly one
directory exists. -/
def pathEnvW : PathEnv :=
  ⟨fun _ => false, fun r p => r ++ "/" ++ p, fun p => p, fun p => p == "/w/m"⟩

/-- Witness for C7: an existing resolved directory is used; a
non-existing one falls back to the remote identifier. -/
theorem getWeightPath_spec_witness :
    getWeightPath pathEnvW "/w" "remote-model" (some "m") = "/w/m" ∧
    getWeightPath pathEnvW "/w" "remote-model" (some "x") = "remote-model" := by
  constructor
  · exact (((getWeightPath_spec pathEnvW "/w" "remote-model").2.1 "m"
      (by decide)).1 (by decide)).trans (by decide)
  · exact ((getWeightPath_spec pathEnvW "/w" "remote-model").2.1 "x"
      (by decide)).2 (by decide)

/-- The cancellable iteration never yields more elements than the
underlying iterable holds. -/
theorem internalTqdmIter_length_le {α : Type} (ev : Option (Nat → Bool)) :
    ∀ (xs : List α) (k : Nat), ((internalTqdmIter ev k xs).1).length ≤ xs.length := by
  intro xs
  induction xs with
  | nil => intro k; simp [internalTqdmIter]
  | cons x xs ih =>
    intro k
    cases ev with
    | none =>
      simp only [internalTqdmIter, List.length_cons]
      exact Nat.succ_le_succ (ih (k + 1))
    | some f =>
      by_cases h : f k = true
      · simp [internalTqdmIter, h]
      · simp only [internalTqdmIter, h, if_neg, Bool.false_eq_true, not_false_iff,
          List.length_cons]
        exact Nat.succ_le_succ (ih (k + 1))

/-- If the stop signal is set at some check that happens strictly before
the iterable is exhausted, the iteration yields strictly fewer elements
than the iterable holds. -/
theorem internalTqdmIter_stop_lt {α : Type} (f : Nat → Bool) :
    ∀ (xs : List α) (k j : Nat), j < xs.length → f (k + j) = true →
      ((internalTqdmIter (some f) k xs).1).length < xs.length := by
  intro xs
  induction xs with
  | nil => intro k j hj hf; simp at hj
  | cons x xs ih =>
    intro k j hj hf
    by_cases h : f k = true
    · simp [internalTqdmIter, h]
    · cases j with
      | zero =>
        rw [Nat.add_zero] at hf
        exact absurd hf h
      | succ j' =>
        have hlt := ih (k + 1) j' (by simpa using hj)
          (by rw [show k + 1 + j' = k + (j' + 1) from by omega]; exact hf)
        simp only [internalTqdmIter, h, if_neg, Bool.false_eq_true, not_false_iff,
          List.length_cons]
        exact Nat.succ_lt_succ hlt

/-- C9: with a stop signal supplied, a signal already set before the
first element is yielded produces zero elements, and a signal set at any
check before the requested total is reached produces strictly fewer
elements than the total. -/
theorem internalTqdm_stop_behavior {α : Type} (xs : List α) (f : Nat → Bool) :
    (f 0 = true → (internalTqdmIter (some f) 0 xs).1 = []) ∧
    (∀ j, j < xs.length → f j = true →
      ((internalTqdmIter (some f) 0 xs).1).length < xs.length) := by
  constructor
  · intro h0
    cases xs with
    | nil => rfl
    | cons x xs => simp [internalTqdmIter, h0]
  · intro j hj hf
    exact internalTqdmIter_stop_lt f xs 0 j hj (by simpa using hf)

/-- Witness for C9: a pre-set signal yields zero of three steps; a
signal set after one step yields one of three steps. -/
theorem internalTqdm_stop_behavior_witness :
    (internalTqdmIter (some fun _ => true) 0 ([0, 1, 2] : List Nat)).1 = [] ∧
    ((internalTqdmIter (some fun k => decide (1 ≤ k)) 0 ([0, 1, 2] : List Nat)).1).length < 3 :=
  ⟨(internalTqdm_stop_behavior [0, 1, 2] (fun _ => true)).1 rfl,
   (internalTqdm_stop_behavior [0, 1, 2] (fun k => decide (1 ≤ k))).2 1 (by decide) (by decide)⟩

/-- Unfolding lemma: `generate` on a recognized sampler installs the
selected scheduler and a fresh progress reporter. -/
theorem generate_eq_ok (w : PipelineWrapper) (p : GenerationParams) (t : Nat)
    (sch : Scheduler) (h : selectScheduler w p.sampler = some sch) :
    generate w p t =
      (Except.ok (), { w with pipeline := { scheduler := sch, progressBar := some t } }) := by
  simp only [generate]
  rw [h]

/-- Unfolding lemma: `generate` on an unrecognized sampler raises with
the wrapper untouched. -/
theorem generate_eq_err (w : PipelineWrapper) (p : GenerationParams) (t : Nat)
    (h : selectScheduler w p.sampler = none) :
    generate w p t = (Except.error (), w) := by
  simp only [generate]
  rw [h]

/-- C6: a scheduler config carrying a non-unit step offset is rewritten
to 1 by `_prepScheduler` with exactly one deprecation warning; the
transform is idempotent (re-running it changes nothing and warns zero
times); and `generate` never touches the wrapper's scheduler slots, so
every subsequent read shows offset 1. -/
theorem prepScheduler_migration (s : Scheduler) (o : Int)
    (h1 : s.stepsOffset = some o) (h2 : o ≠ 1) :
    (prepScheduler s).1.stepsOffset = some 1 ∧
    (prepScheduler s).2 = 1 ∧
    prepScheduler (prepScheduler s).1 = ((prepScheduler s).1, 0) ∧
    ∀ (pipeId : String) (pipe : PipelineState) (d0 e0 ea0 : Scheduler)
      (p : GenerationParams) (t : Nat),
      (generate (mkPipelineWrapper pipeId pipe s d0 e0 ea0).1 p t).2.klms =
        (prepScheduler s).1 := by
  have hp : prepScheduler s = ({ s with stepsOffset := some 1 }, 1) := by
    simp [prepScheduler, h1, h2]
  refine ⟨by rw [hp], by rw [hp], by rw [hp]; simp [prepScheduler], ?_⟩
  intro pipeId pipe d0 e0 ea0 p t
  cases hsel : selectScheduler (mkPipelineWrapper pipeId pipe s d0 e0 ea0).1 p.sampler with
  | none =>
    rw [generate_eq_err _ _ t hsel]
    simp [mkPipelineWrapper]
  | some sch =>
    rw [generate_eq_ok _ _ t sch hsel]
    simp [mkPipelineWrapper]

/-- Witness for C6: a scheduler with offset 0 is migrated to offset 1
with one warning, idempotently, and the wrapper slot reads offset 1
after a `generate` call. -/
theorem prepScheduler_migration_witness :
    (prepScheduler ⟨0, some 0⟩).1.stepsOffset = some 1 ∧
    (prepScheduler ⟨0, some 0⟩).2 = 1 ∧
    prepScheduler (prepScheduler ⟨0, some 0⟩).1 = ((prepScheduler ⟨0, some 0⟩).1, 0) ∧
    (generate (mkPipelineWrapper "sd" ⟨⟨9, none⟩, none⟩ ⟨0, some 0⟩ ⟨1, some 1⟩ ⟨2, none⟩
        ⟨3, some 1⟩).1 ⟨some SAMPLER_K_LMS, 42⟩ 7).2.klms = (prepScheduler ⟨0, some 0⟩).1 := by
  have h := prepScheduler_migration ⟨0, some 0⟩ 0 rfl (by decide)
  exact ⟨h.1, h.2.1, h.2.2.1,
    h.2.2.2 "sd" ⟨⟨9, none⟩, none⟩ ⟨1, some 1⟩ ⟨2, none⟩ ⟨3, some 1⟩ ⟨some SAMPLER_K_LMS, 42⟩ 7⟩

/-- Scheduler selection only reads the construction-time scheduler
slots, never the live pipeline state. -/
theorem selectScheduler_pipeline_irrelevant (w : PipelineWrapper) (ps : PipelineState)
    (sampler : Option Nat) :
    selectScheduler { w with pipeline := ps } sampler = selectScheduler w sampler := by
  cases sampler <;> rfl

/-- C8: scheduler selection is a pure function of the sampler enum —
two consecutive `generate` calls with the same sampler value install the
identical scheduler instance, and `generate` leaves all five
construction-time scheduler slots untouched. -/
theorem generate_scheduler_pure (w : PipelineWrapper) (p1 p2 : GenerationParams)
    (t1 t2 : Nat) (hs : p1.sampler = p2.sampler)
    (h1 : exceptOk (generate w p1 t1).1 = true) :
    exceptOk (generate (generate w p1 t1).2 p2 t2).1 = true ∧
    (generate (generate w p1 t1).2 p2 t2).2.pipeline.scheduler =
      (generate w p1 t1).2.pipeline.scheduler ∧
    (generate w p1 t1).2.plms = w.plms ∧
    (generate w p1 t1).2.klms = w.klms ∧
    (generate w p1 t1).2.ddim = w.ddim ∧
    (generate w p1 t1).2.euler = w.euler ∧
    (generate w p1 t1).2.eulera = w.eulera := by
  cases hsel : selectScheduler w p1.sampler with
  | none =>
    rw [generate_eq_err _ _ t1 hsel] at h1
    simp [exceptOk] at h1
  | some sch =>
    have hw1 : (generate w p1 t1).2 =
        { w with pipeline := { scheduler := sch, progressBar := some t1 } } := by
      rw [generate_eq_ok _ _ t1 sch hsel]
    have hsel2 : selectScheduler (generate w p1 t1).2 p2.sampler = some sch := by
      rw [hw1, selectScheduler_pipeline_irrelevant, ← hs, hsel]
    rw [generate_eq_ok _ _ t2 sch hsel2, hw1]
    exact ⟨rfl, rfl, rfl, rfl, rfl, rfl, rfl⟩

/-- A concrete wrapper used by witnesses. -/
def wrapperW : PipelineWrapper :=
  ⟨"sd", ⟨10, some 1⟩, ⟨11, some 1⟩, ⟨12, some 1⟩, ⟨13, some 1⟩, ⟨14, some 1⟩,
   ⟨⟨10, some 1⟩, none⟩⟩

/-- Witness for C8: two DDIM requests in a row succeed and install the
identical scheduler instance. -/
theorem generate_scheduler_pure_witness :
    exceptOk (generate (generate wrapperW ⟨some SAMPLER_DDIM, 5⟩ 1).2
      ⟨some SAMPLER_DDIM, 6⟩ 2).1 = true ∧
    (generate (generate wrapperW ⟨some SAMPLER_DDIM, 5⟩ 1).2 ⟨some SAMPLER_DDIM, 6⟩ 2).2.pipeline.scheduler =
      (generate wrapperW ⟨some SAMPLER_DDIM, 5⟩ 1).2.pipeline.scheduler :=
  ⟨(generate_scheduler_pure wrapperW ⟨some SAMPLER_DDIM, 5⟩ ⟨some SAMPLER_DDIM, 6⟩ 1 2 rfl
      (by decide)).1,
   (generate_scheduler_pure wrapperW ⟨some SAMPLER_DDIM, 5⟩ ⟨some SAMPLER_DDIM, 6⟩ 1 2 rfl
      (by decide)).2.1⟩

/-- C4: a sampler value outside the five recognized enum values makes
`generate` fail with the unsupported-sampler error, returning the
wrapper completely unchanged (no scheduler or progress reporter
installed); an unset or default-valued sampler succeeds and selects the
pipeline's original default scheduler. -/
theorem generate_unsupported_sampler (w : PipelineWrapper) (p : GenerationParams) (t : Nat) :
    (∀ v, p.sampler = some v → v ≠ SAMPLER_DDPM → v ≠ SAMPLER_K_LMS → v ≠ SAMPLER_DDIM →
      v ≠ SAMPLER_K_EULER → v ≠ SAMPLER_K_EULER_ANCESTRAL →
      generate w p t = (Except.error (), w)) ∧
    ((p.sampler = none ∨ p.sampler = some SAMPLER_DDPM) →
      exceptOk (generate w p t).1 = true ∧
      (generate w p t).2.pipeline.scheduler = w.plms) := by
  constructor
  · intro v hv h0 h1 h2 h3 h4
    simp [generate, selectScheduler, hv, h0, h1, h2, h3, h4]
  · rintro (hv | hv) <;> simp [generate, selectScheduler, hv, exceptOk]

/-- Witness for C4: sampler value 99 is rejected with the wrapper
unchanged; an unset sampler installs the original default scheduler. -/
theorem generate_unsupported_sampler_witness :
    generate wrapperW ⟨some 99, 5⟩ 1 = (Except.error (), wrapperW) ∧
    (generate wrapperW ⟨none, 5⟩ 1).2.pipeline.scheduler = wrapperW.plms :=
  ⟨(generate_unsupported_sampler wrapperW ⟨some 99, 5⟩ 1).1 99 rfl (by decide) (by decide)
      (by decide) (by decide) (by decide),
   ((generate_unsupported_sampler wrapperW ⟨none, 5⟩ 1).2 (Or.inl rfl)).2⟩

/-- A list whose elements all equal `a` filters to nothing under
`(· != a)`. -/
theorem filter_ne_nil_of_all_eq (l : List String) (a : String)
    (h : ∀ w ∈ l, w = a) : l.filter (· != a) = [] := by
  induction l with
  | nil => rfl
  | cons x xs ih =>
    have hx : x = a := h x (by simp)
    rw [List.filter_cons]
    simp only [hx, bne_self_eq_false, Bool.false_eq_true, if_false]
    exact ih (fun w hw => h w (by simp [hw]))

/-- Under the residency invariant, every resident wrapper is the active
one. -/
theorem allres_single (t : EngineManagerState) (h : activeOnlyResident t = true) :
    ∀ w ∈ t.resident, t.activeId = some w := by
  intro w hw
  unfold activeOnlyResident at h
  exact beq_iff_eq.mp (List.all_eq_true.mp h w hw)

/-- Under the residency invariant, at most one wrapper is resident. -/
theorem allres_unique (t : EngineManagerState) (h : activeOnlyResident t = true) :
    ∀ w1 ∈ t.resident, ∀ w2 ∈ t.resident, w1 = w2 := by
  intro w1 h1 w2 h2
  have e1 := allres_single t h w1 h1
  have e2 := allres_single t h w2 h2
  rw [e1] at e2
  exact Option.some.inj e2

/-- With no active wrapper, the residency invariant forces an empty
resident set. -/
theorem resident_nil_of_active_none (s : EngineManagerState)
    (h : activeOnlyResident s = true) (ha : s.activeId = none) : s.resident = [] := by
  cases hr : s.resident with
  | nil => rfl
  | cons x xs =>
    have hx := allres_single s h x (by rw [hr]; simp)
    rw [ha] at hx
    cases hx

/-- With wrapper `a` active, the residency invariant makes deactivating
`a` empty the resident set. -/
theorem filter_active_nil (s : EngineManagerState) (a : String)
    (h : activeOnlyResident s = true) (ha : s.activeId = some a) :
    s.resident.filter (· != a) = [] := by
  apply filter_ne_nil_of_all_eq
  intro w hw
  have hx := allres_single s h w hw
  rw [ha] at hx
  exact (Option.some.inj hx).symm

/-- C2 amended: in every state satisfying the at-most-one-resident part
of the registry invariant, any `getPipe` call — successful or failed —
preserves it: every resident wrapper is the one the active pointer
names, hence at most one wrapper is accelerator-resident and all others
are host-resident; and a successful call additionally preserves the
full invariant (active pointer refers to a resident wrapper).  A failed
lookup while a different wrapper is active breaks only that last part. -/
theorem getPipe_preserves_invariants (s : EngineManagerState) (pid : String)
    (h : activeOnlyResident s = true) :
    activeOnlyResident (getPipe s pid).2 = true ∧
    (∀ w1 ∈ (getPipe s pid).2.resident, ∀ w2 ∈ (getPipe s pid).2.resident, w1 = w2) ∧
    (∀ w ∈ (getPipe s pid).2.resident, (getPipe s pid).2.activeId = some w) ∧
    (managerInv s = true → exceptOk (getPipe s pid).1 = true →
      managerInv (getPipe s pid).2 = true) := by
  have hmain : activeOnlyResident (getPipe s pid).2 = true ∧
      (managerInv s = true → exceptOk (getPipe s pid).1 = true →
        managerInv (getPipe s pid).2 = true) := by
    cases hact : s.activeId with
    | none =>
      have hres := resident_nil_of_active_none s h hact
      by_cases hreg : pid ∈ s.registered
      · constructor
        · simp [getPipe, hact, hreg, activateW, hres, activeOnlyResident]
        · intro _ _
          simp [getPipe, hact, hreg, activateW, hres, managerInv, activeOnlyResident,
            activeIsResident]
      · constructor
        · simpa [getPipe, hact, hreg] using h
        · intro _ hok
          simp [getPipe, hact, hreg, exceptOk] at hok
    | some aid =>
      by_cases hpid : pid = aid
      · constructor
        · simpa [getPipe, hact, hpid] using h
        · intro hm _
          simpa [getPipe, hact, hpid] using hm
      · have hfil := filter_active_nil s aid h hact
        by_cases hreg : pid ∈ s.registered
        · constructor
          · simp [getPipe, hact, hpid, hreg, deactivateW, activateW, hfil,
              activeOnlyResident]
          · intro _ _
            simp [getPipe, hact, hpid, hreg, deactivateW, activateW, hfil, managerInv,
              activeOnlyResident, activeIsResident]
        · constructor
          · simp [getPipe, hact, hpid, hreg, deactivateW, hfil, activeOnlyResident]
          · intro _ hok
            simp [getPipe, hact, hpid, hreg, deactivateW, exceptOk] at hok
  exact ⟨hmain.1, allres_unique _ hmain.1, allres_single _ hmain.1, hmain.2⟩

/-- Witness for C2: swapping the active wrapper from "a" to "b" keeps
the full registry invariant. -/
theorem getPipe_preserves_invariants_witness :
    activeOnlyResident (getPipe ⟨["a", "b"], ["a"], some "a"⟩ "b").2 = true ∧
    managerInv (getPipe ⟨["a", "b"], ["a"], some "a"⟩ "b").2 = true :=
  ⟨(getPipe_preserves_invariants ⟨["a", "b"], ["a"], some "a"⟩ "b" (by decide)).1,
   (getPipe_preserves_invariants ⟨["a", "b"], ["a"], some "a"⟩ "b" (by decide)).2.2.2
     (by decide) (by decide)⟩

/-- Counterexample to C2 as stated: starting from the post-load state
with "a" registered, activating "a" establishes the invariant, but a
failed `getPipe "b"` deactivates the still-active wrapper, leaving the
active pointer referring to a host-resident wrapper. -/
theorem getPipe_invariant_counterexample :
    managerInv (getPipe ⟨["a"], [], none⟩ "a").2 = true ∧
    exceptOk (getPipe (getPipe ⟨["a"], [], none⟩ "a").2 "b").1 = false ∧
    managerInv (getPipe (getPipe ⟨["a"], [], none⟩ "a").2 "b").2 = false := by
  decide

/-- C1 amended: `getPipe` on an unregistered identifier fails with a
lookup error, leaving the active pointer and the registry unchanged;
with no active wrapper the state is fully unchanged, but with a
different active wrapper that wrapper has already been deactivated when
the lookup fails. -/
theorem getPipe_unknown_id (s : EngineManagerState) (pid : String)
    (hreg : pid ∉ s.registered) (hact : s.activeId ≠ some pid) :
    exceptOk (getPipe s pid).1 = false ∧
    (getPipe s pid).2.activeId = s.activeId ∧
    (getPipe s pid).2.registered = s.registered ∧
    (s.activeId = none → (getPipe s pid).2 = s) ∧
    (∀ aid, s.activeId = some aid →
      (getPipe s pid).2.resident = s.resident.filter (· != aid)) := by
  cases ha : s.activeId with
  | none =>
    have hst : getPipe s pid = (Except.error (), s) := by
      simp [getPipe, ha, hreg]
    rw [hst]
    exact ⟨rfl, ha, rfl, fun _ => rfl, fun aid hc => by cases hc⟩
  | some aid =>
    have hpa : pid ≠ aid := fun hh => hact (by rw [ha, hh])
    have hst : getPipe s pid = (Except.error (), deactivateW s aid) := by
      simp [getPipe, ha, hpa, deactivateW, hreg]
    rw [hst]
    refine ⟨rfl, ha, rfl, ?_, ?_⟩
    · intro hc
      cases hc
    · intro a' hc
      injection hc with h
      subst h
      rfl

/-- Witness for C1 (amended): a failed lookup with "a" active returns
the error, keeps the active pointer, and deactivates "a". -/
theorem getPipe_unknown_id_witness :
    exceptOk (getPipe ⟨["a"], ["a"], some "a"⟩ "b").1 = false ∧
    (getPipe ⟨["a"], ["a"], some "a"⟩ "b").2.activeId = some "a" ∧
    (getPipe ⟨["a"], ["a"], some "a"⟩ "b").2.resident = [] :=
  ⟨(getPipe_unknown_id ⟨["a"], ["a"], some "a"⟩ "b" (by decide) (by decide)).1,
   (getPipe_unknown_id ⟨["a"], ["a"], some "a"⟩ "b" (by decide) (by decide)).2.1,
   ((getPipe_unknown_id ⟨["a"], ["a"], some "a"⟩ "b" (by decide) (by decide)).2.2.2.2
     "a" rfl).trans (by decide)⟩

/-- Counterexample to C1 as stated: in the reachable state where "a" is
registered and active, `getPipe "b"` fails with a lookup error but does
mutate state — the active wrapper "a" loses its accelerator residency. -/
theorem getPipe_unknown_id_counterexample :
    ("b" ∉ (getPipe ⟨["a"], [], none⟩ "a").2.registered) ∧
    exceptOk (getPipe (getPipe ⟨["a"], [], none⟩ "a").2 "b").1 = false ∧
    (getPipe (getPipe ⟨["a"], [], none⟩ "a").2 "b").2 ≠ (getPipe ⟨["a"], [], none⟩ "a").2 := by
  decide

/-- Every id registered by `loadPipelines` comes from an engine config
that was enabled for loading. -/
theorem mem_loadPipelines {x : String} :
    ∀ engines : List Engine, x ∈ (loadPipelines engines).1 →
      ∃ e, e ∈ engines ∧ e.id = x ∧ enabledForLoad e = true := by
  intro engines
  induction engines with
  | nil =>
    intro hx
    simp [loadPipelines] at hx
  | cons e rest ih =>
    intro hx
    by_cases he : enabledForLoad e = true
    · by_cases hc : knownClass e.cls = true
      · simp only [loadPipelines, he, hc, if_true] at hx
        rcases List.mem_cons.mp hx with hx | hx
        · exact ⟨e, List.mem_cons_self e rest, hx.symm, he⟩
        · rcases ih hx with ⟨e', he', hid, hen⟩
          exact ⟨e', List.mem_cons_of_mem e he', hid, hen⟩
      · simp [loadPipelines, he, hc] at hx
    · simp only [loadPipelines, he, if_false, Bool.false_eq_true] at hx
      rcases ih hx with ⟨e', he', hid, hen⟩
      exact ⟨e', List.mem_cons_of_mem e he', hid, hen⟩

/-- C10: an engine config that omits the `enabled` field is skipped by
`loadPipelines` (missing `enabled` counts as disabled there) yet is
included by `getStatus` (missing `enabled` counts as enabled there), so
— under the data model's unique-identifier assumption, here taken as no
config with the same id being enabled for loading — its identifier
appears in the readiness map mapped to `false`. -/
theorem engine_missing_enabled_status (engines : List Engine) (e : Engine)
    (he : e ∈ engines) (hnone : e.enabled = none)
    (hu : ∀ eb ∈ engines, eb.id = e.id → enabledForLoad eb = false) :
    enabledForLoad e = false ∧
    includedInStatus e = true ∧
    e.id ∉ (loadPipelines engines).1 ∧
    (e.id, false) ∈ getStatus engines (loadPipelines engines).1 := by
  have h1 : enabledForLoad e = false := by simp [enabledForLoad, hnone]
  have h2 : includedInStatus e = true := by simp [includedInStatus, hnone]
  have h3 : e.id ∉ (loadPipelines engines).1 := by
    intro hmem
    rcases mem_loadPipelines engines hmem with ⟨e', he', hid, hen⟩
    rw [hu e' he' hid] at hen
    cases hen
  refine ⟨h1, h2, h3, ?_⟩
  have hf : e ∈ engines.filter includedInStatus := List.mem_filter.mpr ⟨he, h2⟩
  have hm : (e.id, decide (e.id ∈ (loadPipelines engines).1)) ∈
      getStatus engines (loadPipelines engines).1 :=
    List.mem_map.mpr ⟨e, hf, rfl⟩
  rwa [decide_eq_false h3] at hm

/-- A concrete engine config with no `enabled` key, for the C10 witness. -/
def engineW : Engine := ⟨"a", "StableDiffusionPipeline", "m", none, none, none, none⟩

/-- Witness for C10: the lone engine without an `enabled` key registers
nothing and shows up as not-ready. -/
theorem engine_missing_enabled_status_witness :
    enabledForLoad engineW = false ∧
    ("a", false) ∈ getStatus [engineW] (loadPipelines [engineW]).1 :=
  ⟨(engine_missing_enabled_status [engineW] engineW (by decide) rfl (by decide)).1,
   (engine_missing_enabled_status [engineW] engineW (by decide) rfl (by decide)).2.2.2⟩

/-- C5 amended: an engine config explicitly marked `enabled: false` is
skipped by `loadPipelines` (no pipeline registered for it), and
`getStatus` omits its identifier from the readiness map entirely —
explicitly disabled engines are excluded from status reporting rather
than being mapped to `false`. -/
theorem disabled_engine_excluded (engines : List Engine) (e : Engine)
    (he : e ∈ engines) (hd : e.enabled = some false)
    (hu : ∀ eb ∈ engines, eb.id = e.id → eb = e) :
    enabledForLoad e = false ∧
    e.id ∉ (loadPipelines engines).1 ∧
    ∀ pr ∈ getStatus engines (loadPipelines engines).1, pr.1 ≠ e.id := by
  have h1 : enabledForLoad e = false := by simp [enabledForLoad, hd]
  have h3 : e.id ∉ (loadPipelines engines).1 := by
    intro hmem
    rcases mem_loadPipelines engines hmem with ⟨e', he', hid, hen⟩
    rw [hu e' he' hid, h1] at hen
    cases hen
  refine ⟨h1, h3, ?_⟩
  intro pr hpr hpe
  rcases List.mem_map.mp hpr with ⟨eb, hbf, hbe⟩
  rcases List.mem_filter.mp hbf with ⟨hbmem, hbinc⟩
  have hbid : eb.id = e.id := by
    have := congrArg Prod.fst hbe
    simpa [hpe] using this
  have heb : eb = e := hu eb hbmem hbid
  rw [heb] at hbinc
  rw [includedInStatus, hd] at hbinc
  cases hbinc

/-- The explicitly disabled engine config used by the C5 witness and
counterexample. -/
def engineDisabledW : Engine :=
  ⟨"a", "StableDiffusionPipeline", "m", none, some false, none, none⟩

/-- A second, enabled engine config used by the C5 witness. -/
def engineEnabledW : Engine := ⟨"b", "UnifiedPipeline", "m2", none, some true, none, none⟩

/-- Witness for C5 (amended): with one disabled and one enabled engine,
the disabled id is neither registered nor present in the status map. -/
theorem disabled_engine_excluded_witness :
    "a" ∉ (loadPipelines [engineDisabledW, engineEnabledW]).1 ∧
    ∀ pr ∈ getStatus [engineDisabledW, engineEnabledW]
      (loadPipelines [engineDisabledW, engineEnabledW]).1, pr.1 ≠ "a" :=
  ⟨(disabled_engine_excluded [engineDisabledW, engineEnabledW] engineDisabledW
      (by decide) rfl (by decide)).2.1,
   (disabled_engine_excluded [engineDisabledW, engineEnabledW] engineDisabledW
      (by decide) rfl (by decide)).2.2⟩

/-- Counterexample to C5 as stated: for a lone engine explicitly marked
`enabled: false`, no pipeline is registered, but the readiness map is
empty — the engine's identifier is not mapped to `false`, it is absent. -/
theorem disabled_engine_excluded_counterexample :
    (loadPipelines [engineDisabledW]).1 = [] ∧
    getStatus [engineDisabledW] (loadPipelines [engineDisabledW]).1 = [] ∧
    ("a", false) ∉ getStatus [engineDisabledW] (loadPipelines [engineDisabledW]).1 := by
  decide
